import Mathlib

/-!
Shallow embedding of the Tasqueue server core (the `tasqueue` package file
holding `NewServer`, `RegisterTask`, `GetResult`, `process`, `execJob`,
`retryJob` and the `status*` state writers).

External effects (results store writes, broker enqueues, successor enqueues,
handler invocation) are recorded in an explicit event trace; the outcome of
each external call is decided by an `Env` oracle, mirroring the fact that the
broker and results store are pluggable interfaces.  Machine integers
(`uint32` counters) are modelled as `Nat`; `time.Time` as a `Nat` clock value
supplied by the environment.
-/

namespace Tasqueue

/-- Modelled from the spec: options governing a job (queue override, max
retries, schedule expression); the concrete struct is outside the provided
source excerpt (spec section 3, "Job"). -/
structure JobOpts where
  queue : String
  maxRetry : Nat
  schedule : String
deriving Repr, DecidableEq

/-- Modelled from the spec: a user-level job submission with an optional
chained successor (spec section 3, "Job"); the concrete struct is outside the
provided source excerpt. -/
inductive Job where
  | mk (task : String) (payload : List Nat) (opts : JobOpts) (onSuccess : Option Job)

def Job.task : Job → String
  | .mk t _ _ _ => t

def Job.payload : Job → List Nat
  | .mk _ p _ _ => p

def Job.opts : Job → JobOpts
  | .mk _ _ o _ => o

def Job.onSuccess : Job → Option Job
  | .mk _ _ _ s => s

/-- Modelled from the spec: message metadata propagated into the handler
context; of its fields only `prevJobResults` is touched by the provided
source excerpt (spec section 3, "JobMessage"/"JobCtx"). -/
structure Meta where
  prevJobResults : List (List Nat)
deriving Repr, DecidableEq

/-- Modelled from the spec: the on-the-wire, persisted form of an in-flight
job (spec section 3, "JobMessage"); the concrete struct is outside the
provided source excerpt.  Field names follow the spec. -/
structure JobMessage where
  uuid : String
  job : Job
  status : String
  queue : String
  maxRetry : Nat
  retried : Nat
  prevErr : String
  processedAt : Nat
  onSuccessUUID : String
  meta : Meta

/-- The per-execution handler context (`JobCtx`); the `store` reference is
dropped since the embedding records store effects in the event trace. -/
structure JobCtx where
  meta : Meta
  results : List (List Nat)

/-- A task handler.  The source type is `func([]byte, JobCtx) error`; a
handler may append artifacts via `JobCtx.Save` (outside the excerpt), so it
is modelled as returning the optional error string together with the updated
context. -/
def Handler := List Nat → JobCtx → Option String × JobCtx

/-- Task options; the four lifecycle callbacks are modelled by their
presence flags since their bodies have no effect observable by the server
core. -/
structure TaskOpts where
  concurrency : Nat
  queue : String
  successCB : Bool
  processingCB : Bool
  retryingCB : Bool
  failedCB : Bool

/-- A registered task descriptor. -/
structure Task where
  name : String
  handler : Handler
  opts : TaskOpts

def defaultConcurrency : Nat := 1

def StatusStarted : String := "queued"

def StatusProcessing : String := "processing"

def StatusFailed : String := "failed"

def StatusDone : String := "successful"

def StatusRetrying : String := "retrying"

/-- Modelled from the spec: the default queue name constant, defined outside
the provided source excerpt (spec section 3 gives "tasqueue:tasks"). -/
def DefaultQueue : String := "tasqueue:tasks"

/-- Modelled from the spec: result artifacts are stored under a stable key
base, written `result:<uuid>` in the spec (section 6); the Go constant
holding it is outside the provided source excerpt. -/
def resultsKeyBase : String := "result:"

/-- Raw bytes travelling through the broker, modelled by their msgpack
decoding outcome: either malformed bytes or the `JobMessage` they encode. -/
inductive RawBytes where
  | malformed (e : String)
  | encodes (m : JobMessage)

/-- msgpack.Marshal of a `JobMessage`: total, since every field of the struct
is a msgpack-encodable type, and faithful (decoding yields the message
back). -/
def msgpackMarshal (m : JobMessage) : RawBytes := RawBytes.encodes m

/-- msgpack.Unmarshal into a pointer to `JobMessage`. -/
def msgpackUnmarshalJobMessage : RawBytes → Except String JobMessage
  | RawBytes.malformed e => Except.error e
  | RawBytes.encodes m => Except.ok m

/-- msgpack.Unmarshal applied to a decode target passed by value (a
non-pointer), as `GetResult` does with its `[][]byte` variable `d`: the
msgpack v5 library rejects every non-pointer decode target with an error
before reading any data. -/
def msgpackUnmarshalNonPtrTarget (_b : List Nat) : Except String Unit :=
  Except.error "msgpack: Decode(non-pointer [][]byte)"

/-- Observable external effects of the server core, in program order. -/
inductive Event where
  | setMsg (m : JobMessage)
  | setSuccess (uuid : String)
  | setFailed (uuid : String)
  | enqueue (b : RawBytes) (queue : String)
  | enqueueSuccessor (j : Job) (meta : Meta)
  | handlerRun (payload : List Nat)

/-- Environment oracle deciding the outcome of each external call, plus the
current wall clock. -/
structure Env where
  now : Nat
  setMsgOK : JobMessage → Bool
  setSuccessOK : String → Bool
  setFailedOK : String → Bool
  enqueueOK : RawBytes → String → Bool
  enqueueWithMeta : Job → Meta → Except String String

/-- Modelled from the spec: `setJobMessage` persists the job-message record
through the results interface (spec sections 2 and 6); its body is outside
the provided source excerpt.  The write attempt is recorded; the oracle
decides whether it succeeds. -/
def setJobMessage (env : Env) (t : JobMessage) : Except String Unit × List Event :=
  if env.setMsgOK t then (Except.ok (), [Event.setMsg t])
  else (Except.error "results set failed", [Event.setMsg t])

/-- `statusProcessing` from the source: stamps the clock, sets the status to
`processing` and persists the message. -/
def statusProcessing (env : Env) (t : JobMessage) : Except String Unit × List Event :=
  let t := { t with processedAt := env.now, status := StatusProcessing }
  setJobMessage env t

/-- `statusDone` from the source: stamps the clock, sets the status to
`successful`, adds the uuid to the success index and, only if that
succeeded, persists the message. -/
def statusDone (env : Env) (t : JobMessage) : Except String Unit × List Event :=
  let t := { t with processedAt := env.now, status := StatusDone }
  if env.setSuccessOK t.uuid then
    let r := setJobMessage env t
    (r.1, Event.setSuccess t.uuid :: r.2)
  else (Except.error "SetSuccess failed", [Event.setSuccess t.uuid])

/-- `statusFailed` from the source: stamps the clock, sets the status to
`failed`, adds the uuid to the failed index and, only if that succeeded,
persists the message. -/
def statusFailed (env : Env) (t : JobMessage) : Except String Unit × List Event :=
  let t := { t with processedAt := env.now, status := StatusFailed }
  if env.setFailedOK t.uuid then
    let r := setJobMessage env t
    (r.1, Event.setFailed t.uuid :: r.2)
  else (Except.error "SetFailed failed", [Event.setFailed t.uuid])

/-- `statusRetrying` from the source: stamps the clock, sets the status to
`retrying` and persists the message. -/
def statusRetrying (env : Env) (t : JobMessage) : Except String Unit × List Event :=
  let t := { t with processedAt := env.now, status := StatusRetrying }
  setJobMessage env t

/-- `retryJob` from the source: increments the retried count, marshals the
message, writes the `retrying` state and then re-enqueues the marshalled
bytes on the message's queue; each step aborts the rest on error. -/
def retryJob (env : Env) (msg : JobMessage) : Except String Unit × List Event :=
  let msg := { msg with retried := msg.retried + 1 }
  let b := msgpackMarshal msg
  let r := statusRetrying env msg
  match r.1 with
  | Except.error e => (Except.error e, r.2)
  | Except.ok _ =>
    if env.enqueueOK b msg.queue then
      (Except.ok (), r.2 ++ [Event.enqueue b msg.queue])
    else (Except.error "enqueue failed", r.2 ++ [Event.enqueue b msg.queue])

/-- Modelled from the spec: the default metadata `DefaultMeta(opts)`
constructed for a chain successor (spec sections 4.2 and 4.7); its body is
outside the provided source excerpt.  Only `prevJobResults` is relevant
here, and `execJob` overwrites it right after this call. -/
def DefaultMeta (_o : JobOpts) : Meta := { prevJobResults := [] }

/-- `execJob` from the source: runs the handler; on error sets `prevErr` and
branches on `maxRetry != retried` between retry and failure; on success
enqueues the `OnSuccess` successor (storing its uuid) before marking the
message done. -/
def execJob (env : Env) (msg : JobMessage) (task : Task) : Except String Unit × List Event :=
  let taskCtx : JobCtx := { meta := msg.meta, results := [] }
  let h := task.handler msg.job.payload taskCtx
  let hev : List Event := [Event.handlerRun msg.job.payload]
  match h.1 with
  | some e =>
    let msg := { msg with prevErr := e }
    if msg.maxRetry ≠ msg.retried then
      let r := retryJob env msg
      (r.1, hev ++ r.2)
    else
      let r := statusFailed env msg
      (r.1, hev ++ r.2)
  | none =>
    match msg.job.onSuccess with
    | some j =>
      let meta := { DefaultMeta j.opts with prevJobResults := h.2.results }
      match env.enqueueWithMeta j meta with
      | Except.error e => (Except.error e, hev ++ [Event.enqueueSuccessor j meta])
      | Except.ok u =>
        let msg := { msg with onSuccessUUID := u }
        let r := statusDone env msg
        (r.1, hev ++ [Event.enqueueSuccessor j meta] ++ r.2)
    | none =>
      let r := statusDone env msg
      (r.1, hev ++ r.2)

/-- The registered-tasks map of the server, with the lock discipline erased
(state-passing embedding of the `tasks` field). -/
def Registry := String → Option Task

def emptyRegistry : Registry := fun _ => none

/-- `registerHandler` from the source: map insert, replacing any previous
entry under the same name. -/
def registerHandler (tasks : Registry) (name : String) (t : Task) : Registry :=
  fun n => if n = name then some t else tasks n

/-- `getHandler` from the source: map lookup, an error when the name is
absent. -/
def getHandler (tasks : Registry) (name : String) : Except String Task :=
  match tasks name with
  | some fn => Except.ok fn
  | none => Except.error ("handler not found: " ++ name)

/-- `RegisterTask` from the source: normalizes the options (`concurrency <= 0`
becomes the default, an empty queue becomes `DefaultQueue`) and inserts the
task descriptor. -/
def RegisterTask (tasks : Registry) (name : String) (fn : Handler) (opts : TaskOpts) : Registry :=
  let opts := if opts.concurrency ≤ 0 then { opts with concurrency := defaultConcurrency } else opts
  let opts := if opts.queue = "" then { opts with queue := DefaultQueue } else opts
  registerHandler tasks name { name := name, handler := fn, opts := opts }

/-- The per-message body of `process` from the source: decode, look up the
handler, write the `processing` state, then execute; each step drops the
message on error (decode and lookup errors produce no store write at all,
a failed `processing` write leaves only that attempted write). -/
def processMessage (env : Env) (tasks : Registry) (work : RawBytes) : List Event :=
  match msgpackUnmarshalJobMessage work with
  | Except.error _ => []
  | Except.ok msg =>
    match getHandler tasks msg.job.task with
    | Except.error _ => []
    | Except.ok task =>
      let r := statusProcessing env msg
      match r.1 with
      | Except.error _ => r.2
      | Except.ok _ => r.2 ++ (execJob env msg task).2

/-- The logger (`logf.Logger`), reduced to the one field the source
inspects. -/
structure Logger where
  level : Nat
deriving Repr, DecidableEq

/-- Modelled from the spec: `logf.New(logf.Opts{})`, the defaulted logger the
server constructs when none was supplied; its level is nonzero (the library
default), which is all the source relies on. -/
def defaultLogger : Logger := { level := 1 }

/-- The cron scheduler handle; `cron.New()` constructs it stopped. -/
structure Cron where
  started : Bool
deriving Repr, DecidableEq

def cronNew : Cron := { started := false }

/-- The server record: broker and results references are modelled as opaque
identifiers, `none` standing for a nil interface value in the options. -/
structure Server where
  log : Logger
  broker : Nat
  results : Nat
  cron : Cron
  traceProv : Option Nat
  tasks : Registry

structure ServerOpts where
  broker : Option Nat
  results : Option Nat
  logger : Logger
  traceProvider : Option Nat

/-- `NewServer` from the source: rejects a nil broker or nil results store,
defaults a zero-level logger, and returns a server with a fresh stopped cron
scheduler and an empty tasks map. -/
def NewServer (o : ServerOpts) : Except String Server :=
  match o.broker with
  | none => Except.error "broker missing in options"
  | some b =>
    match o.results with
    | none => Except.error "results missing in options"
    | some r =>
      let log := if o.logger.level = 0 then defaultLogger else o.logger
      Except.ok { log := log, broker := b, results := r, cron := cronNew,
                  traceProv := o.traceProvider, tasks := emptyRegistry }

/-- `GetResult` from the source: reads the record under the results key base
and hands it to msgpack.Unmarshal with the target variable `d` passed by
value (the source writes `msgpack.Unmarshal(b, d)`, not `&d`); the final
branch returns the untouched nil slice. -/
def GetResult (store : String → Except String (List Nat)) (uuid : String) :
    Except String (List (List Nat)) :=
  match store (resultsKeyBase ++ uuid) with
  | Except.error e => Except.error e
  | Except.ok b =>
    match msgpackUnmarshalNonPtrTarget b with
    | Except.error e => Except.error e
    | Except.ok _ => Except.ok []

/-! Concrete fixtures used by witness theorems. -/

def jobOpts₀ : JobOpts := { queue := "q", maxRetry := 2, schedule := "" }

def testOpts : TaskOpts :=
  { concurrency := 1, queue := "q", successCB := false, processingCB := false,
    retryingCB := false, failedCB := false }

def job₀ : Job := Job.mk "t" [1, 2] jobOpts₀ none

def childJob : Job := Job.mk "t2" [3] jobOpts₀ none

def jobChained : Job := Job.mk "t" [1, 2] jobOpts₀ (some childJob)

def msg₀ : JobMessage :=
  { uuid := "u", job := job₀, status := StatusProcessing, queue := "q", maxRetry := 2,
    retried := 0, prevErr := "", processedAt := 7, onSuccessUUID := "",
    meta := { prevJobResults := [] } }

def msgChained : JobMessage := { msg₀ with job := jobChained }

def msgOverRetried : JobMessage := { msg₀ with retried := 5, maxRetry := 2 }

def msgExhausted : JobMessage := { msg₀ with retried := 2, maxRetry := 2 }

def failHandler : Handler := fun _ c => (some "boom", c)

def okHandler : Handler := fun _ c => (none, c)

def failTask : Task := { name := "t", handler := failHandler, opts := testOpts }

def okTask : Task := { name := "t", handler := okHandler, opts := testOpts }

def env₀ : Env :=
  { now := 9, setMsgOK := fun _ => true, setSuccessOK := fun _ => true,
    setFailedOK := fun _ => true, enqueueOK := fun _ _ => true,
    enqueueWithMeta := fun _ _ => Except.ok "child" }

def envNoEnqueue : Env := { env₀ with enqueueOK := fun _ _ => false }

def envNoIndex : Env := { env₀ with setSuccessOK := fun _ => false, setFailedOK := fun _ => false }

def envNoSet : Env := { env₀ with setMsgOK := fun _ => false }

def envChainErr : Env := { env₀ with enqueueWithMeta := fun _ _ => Except.error "chain enqueue failed" }

def store₀ : String → Except String (List Nat) :=
  fun k => if k = "result:u" then Except.ok [147, 1, 2] else Except.error "record not found"

def registry₀ : Registry := registerHandler emptyRegistry "t" failTask

/-- Claim C7: after RegisterTask(name, fn, opts), a lookup of name returns a
descriptor whose concurrency equals opts.concurrency when positive and the
default 1 when it is zero (the counter is unsigned), and whose queue equals
opts.queue when nonempty and DefaultQueue when empty; registering the same
name again replaces the prior entry. -/
theorem RegisterTask_lookup_normalized (tasks : Registry) (name : String)
    (fn : Handler) (opts : TaskOpts) :
    getHandler (RegisterTask tasks name fn opts) name =
      Except.ok { name := name, handler := fn,
                  opts := { opts with
                    concurrency :=
                      if opts.concurrency = 0 then defaultConcurrency else opts.concurrency,
                    queue := if opts.queue = "" then DefaultQueue else opts.queue } }
    ∧ ∀ fn' opts',
        getHandler (RegisterTask (RegisterTask tasks name fn' opts') name fn opts) name =
          getHandler (RegisterTask tasks name fn opts) name := by
  constructor
  · obtain ⟨c, q, a1, a2, a3, a4⟩ := opts
    simp only [RegisterTask, registerHandler, getHandler, Nat.le_zero]
    by_cases hc : c = 0 <;> by_cases hq : q = "" <;> simp [hc, hq]
  · intro fn' opts'
    simp [RegisterTask, registerHandler, getHandler]

/-- Claim C8: NewServer returns an error exactly when the broker or the
results store is nil; otherwise it returns a server holding the given broker
and results references, an empty registry, a constructed not-yet-started
cron scheduler, and a logger defaulted exactly when none (level zero) was
supplied. -/
theorem NewServer_spec (o : ServerOpts) :
    ((∃ e, NewServer o = Except.error e) ↔ (o.broker = none ∨ o.results = none))
    ∧ (∀ b r, o.broker = some b → o.results = some r →
        NewServer o = Except.ok
          { log := if o.logger.level = 0 then defaultLogger else o.logger,
            broker := b, results := r, cron := cronNew,
            traceProv := o.traceProvider, tasks := emptyRegistry })
    ∧ cronNew.started = false
    ∧ (∀ n, emptyRegistry n = none) := by
  refine ⟨?_, ?_, rfl, fun _ => rfl⟩
  · cases hb : o.broker <;> cases hr : o.results <;> simp [NewServer, hb, hr]
  · intro b r hb hr
    simp [NewServer, hb, hr]

/-- Claim C8 witness: at concrete options with both references present,
NewServer returns the fully described server. -/
theorem NewServer_spec_witness :
    NewServer { broker := some 3, results := some 4, logger := { level := 0 },
                traceProvider := none } =
      Except.ok { log := defaultLogger, broker := 3, results := 4, cron := cronNew,
                  traceProv := none, tasks := emptyRegistry } :=
  (NewServer_spec { broker := some 3, results := some 4, logger := { level := 0 },
                    traceProvider := none }).2.1 3 4 rfl rfl

/-- Claim C5 (refuted by the code): GetResult hands the decode target `d` to
msgpack.Unmarshal by value, a non-pointer, which the msgpack library always
rejects; so GetResult returns an error for every store and uuid — in
particular the non-pointer decode error when the record exists — and never
the saved byte blobs. -/
theorem GetResult_always_errors :
    GetResult store₀ "u" = Except.error "msgpack: Decode(non-pointer [][]byte)"
    ∧ ∀ (store : String → Except String (List Nat)) (uuid : String),
        ∃ e, GetResult store uuid = Except.error e := by
  constructor
  · rfl
  · intro store uuid
    unfold GetResult
    cases store (resultsKeyBase ++ uuid) with
    | error e => exact ⟨e, rfl⟩
    | ok b => exact ⟨"msgpack: Decode(non-pointer [][]byte)", rfl⟩

/-- Claim C1: when the handler errors and retried is strictly below maxRetry,
execJob sets prevErr to the handler's error string, increments retried by
exactly one, and writes the `retrying` state; when that write succeeds the
full trace shows the `retrying` state write strictly before the broker
enqueue of the incremented message on the same queue — the same trace
whether or not the broker enqueue succeeds, so a failed re-enqueue still has
the `retrying` write before it. -/
theorem execJob_retrying_before_enqueue (env : Env) (msg : JobMessage) (task : Task)
    (e : String) (c' : JobCtx)
    (hh : task.handler msg.job.payload { meta := msg.meta, results := [] } = (some e, c'))
    (hlt : msg.retried < msg.maxRetry) :
    Event.setMsg { msg with
      prevErr := e
      retried := msg.retried + 1
      processedAt := env.now
      status := StatusRetrying } ∈ (execJob env msg task).2
    ∧ (env.setMsgOK { msg with
        prevErr := e
        retried := msg.retried + 1
        processedAt := env.now
        status := StatusRetrying } = true →
        (execJob env msg task).2 =
          [Event.handlerRun msg.job.payload,
           Event.setMsg { msg with
             prevErr := e
             retried := msg.retried + 1
             processedAt := env.now
             status := StatusRetrying },
           Event.enqueue (RawBytes.encodes { msg with
             prevErr := e
             retried := msg.retried + 1 }) msg.queue]) := by
  have hne : msg.maxRetry ≠ msg.retried := ne_of_gt hlt
  by_cases hset : env.setMsgOK { msg with
      prevErr := e
      retried := msg.retried + 1
      processedAt := env.now
      status := StatusRetrying } = true <;>
  by_cases henq : env.enqueueOK (RawBytes.encodes { msg with
      prevErr := e
      retried := msg.retried + 1 }) msg.queue = true <;>
    simp [execJob, hh, hne, retryJob, statusRetrying, setJobMessage, msgpackMarshal, hset, henq]

/-- Claim C1 witness: at a concrete failing handler with retried 0 below
maxRetry 2, the `retrying` state write is in the trace. -/
theorem execJob_retrying_before_enqueue_witness :
    Event.setMsg { msg₀ with
      prevErr := "boom"
      retried := 1
      processedAt := 9
      status := StatusRetrying } ∈ (execJob env₀ msg₀ failTask).2 :=
  (execJob_retrying_before_enqueue env₀ msg₀ failTask "boom"
    { meta := msg₀.meta, results := [] } rfl (by decide)).1

/-- Claim C2: when the handler errors and retried equals maxRetry, execJob
performs no broker re-enqueue and no successor enqueue; it adds the uuid to
the failed index, and when that succeeds the trace is exactly the failed
index write followed by the `failed` state write carrying prevErr equal to
the handler's error string. -/
theorem execJob_failed_path (env : Env) (msg : JobMessage) (task : Task)
    (e : String) (c' : JobCtx)
    (hh : task.handler msg.job.payload { meta := msg.meta, results := [] } = (some e, c'))
    (heq : msg.retried = msg.maxRetry) :
    (∀ b q, Event.enqueue b q ∉ (execJob env msg task).2)
    ∧ (∀ j m, Event.enqueueSuccessor j m ∉ (execJob env msg task).2)
    ∧ Event.setFailed msg.uuid ∈ (execJob env msg task).2
    ∧ (env.setFailedOK msg.uuid = true →
        (execJob env msg task).2 =
          [Event.handlerRun msg.job.payload,
           Event.setFailed msg.uuid,
           Event.setMsg { msg with
             prevErr := e
             processedAt := env.now
             status := StatusFailed }]) := by
  have hne : ¬ msg.maxRetry ≠ msg.retried := by simp [heq]
  by_cases hidx : env.setFailedOK msg.uuid = true <;>
  by_cases hset : env.setMsgOK { msg with
      prevErr := e
      processedAt := env.now
      status := StatusFailed } = true <;>
    simp [execJob, hh, hne, statusFailed, setJobMessage, hidx, hset]

/-- Claim C2 witness: at a concrete always-failing handler with retried and
maxRetry both 2, the exhausted message goes to the failed index and the
failed state write, with no enqueues. -/
theorem execJob_failed_path_witness :
    (execJob env₀ msgExhausted failTask).2 =
      [Event.handlerRun msgExhausted.job.payload,
       Event.setFailed msgExhausted.uuid,
       Event.setMsg { msgExhausted with
         prevErr := "boom"
         processedAt := 9
         status := StatusFailed }] :=
  (execJob_failed_path env₀ msgExhausted failTask "boom"
    { meta := msgExhausted.meta, results := [] } rfl rfl).2.2.2 rfl

/-- Claim C9: the fail-versus-retry decision tests only exact equality of
retried and maxRetry: whenever they differ — including retried strictly
above maxRetry — a handler error leads to the retry path (no failed-index
write, every state write carries the `retrying` status with the incremented
counter, and when the state write succeeds the incremented message is
re-enqueued), never to the failed state. -/
theorem execJob_retries_whenever_neq (env : Env) (msg : JobMessage) (task : Task)
    (e : String) (c' : JobCtx)
    (hh : task.handler msg.job.payload { meta := msg.meta, results := [] } = (some e, c'))
    (hne : msg.retried ≠ msg.maxRetry) :
    (∀ u, Event.setFailed u ∉ (execJob env msg task).2)
    ∧ (∀ m, Event.setMsg m ∈ (execJob env msg task).2 →
        m = { msg with
          prevErr := e
          retried := msg.retried + 1
          processedAt := env.now
          status := StatusRetrying })
    ∧ (env.setMsgOK { msg with
        prevErr := e
        retried := msg.retried + 1
        processedAt := env.now
        status := StatusRetrying } = true →
        Event.enqueue (RawBytes.encodes { msg with
          prevErr := e
          retried := msg.retried + 1 }) msg.queue ∈ (execJob env msg task).2) := by
  have hne' : msg.maxRetry ≠ msg.retried := fun h => hne h.symm
  by_cases hset : env.setMsgOK { msg with
      prevErr := e
      retried := msg.retried + 1
      processedAt := env.now
      status := StatusRetrying } = true <;>
  by_cases henq : env.enqueueOK (RawBytes.encodes { msg with
      prevErr := e
      retried := msg.retried + 1 }) msg.queue = true <;>
    simp [execJob, hh, hne', retryJob, statusRetrying, setJobMessage, msgpackMarshal, hset, henq]

/-- Claim C9 witness: at the out-of-invariant message with retried 5 above
maxRetry 2, a handler error still produces no failed-index write. -/
theorem execJob_retries_whenever_neq_witness :
    Event.setFailed "u" ∉ (execJob env₀ msgOverRetried failTask).2 :=
  (execJob_retries_whenever_neq env₀ msgOverRetried failTask "boom"
    { meta := msgOverRetried.meta, results := [] } rfl (by decide)).1 "u"

/-- Claim C10: every broker enqueue in retryJob's trace carries the message
marshalled before the `retrying` status write: it has the incremented
retried counter but the status and processedAt of the message as delivered;
and every results-store state write in that trace carries the `retrying`
status with the environment's fresh timestamp — so the `retrying` status
never reaches the broker unless the message was already delivered with it. -/
theorem retryJob_wire_frame (env : Env) (msg : JobMessage) :
    (∀ b q, Event.enqueue b q ∈ (retryJob env msg).2 →
        b = RawBytes.encodes { msg with retried := msg.retried + 1 } ∧ q = msg.queue)
    ∧ (∀ b q m, Event.enqueue b q ∈ (retryJob env msg).2 → b = RawBytes.encodes m →
        m.status = msg.status ∧ m.processedAt = msg.processedAt ∧ m.retried = msg.retried + 1)
    ∧ (∀ m, Event.setMsg m ∈ (retryJob env msg).2 →
        m = { msg with
          retried := msg.retried + 1
          processedAt := env.now
          status := StatusRetrying }) := by
  by_cases hset : env.setMsgOK { msg with
      retried := msg.retried + 1
      processedAt := env.now
      status := StatusRetrying } = true <;>
  by_cases henq : env.enqueueOK (RawBytes.encodes { msg with
      retried := msg.retried + 1 }) msg.queue = true <;>
    simp [retryJob, statusRetrying, setJobMessage, msgpackMarshal, hset, henq] <;>
    intro b q m1 hb hq hbm <;> subst hb <;> injection hbm with h4 <;> subst h4 <;> simp

/-- Claim C10 witness: at the concrete delivered message, the wire message of
the re-enqueue keeps the delivered `processing` status and timestamp while
carrying the incremented counter. -/
theorem retryJob_wire_frame_witness :
    { msg₀ with retried := 1 : JobMessage }.status = msg₀.status
    ∧ { msg₀ with retried := 1 : JobMessage }.processedAt = msg₀.processedAt
    ∧ { msg₀ with retried := 1 : JobMessage }.retried = msg₀.retried + 1 :=
  (retryJob_wire_frame env₀ msg₀).2.1
    (RawBytes.encodes { msg₀ with retried := 1 }) "q" { msg₀ with retried := 1 }
    (by simp [retryJob, statusRetrying, setJobMessage, msgpackMarshal, env₀, msg₀])
    rfl

/-- Claim C3: when the handler returns nil and the message has an OnSuccess
successor, execJob enqueues the successor strictly before the parent's
`successful` state write, storing the returned uuid into the parent's
onSuccessUUID; when the successor enqueue errors, execJob returns that error
with a trace holding no success-index write and no state write at all, so
the parent is neither marked successful nor added to the success index. -/
theorem execJob_chain_before_done (env : Env) (msg : JobMessage) (task : Task)
    (j : Job) (c' : JobCtx)
    (hh : task.handler msg.job.payload { meta := msg.meta, results := [] } = (none, c'))
    (hs : msg.job.onSuccess = some j) :
    (∀ e, env.enqueueWithMeta j { DefaultMeta j.opts with prevJobResults := c'.results } =
        Except.error e →
        (execJob env msg task).1 = Except.error e
        ∧ (execJob env msg task).2 =
            [Event.handlerRun msg.job.payload,
             Event.enqueueSuccessor j { DefaultMeta j.opts with prevJobResults := c'.results }]
        ∧ (∀ u, Event.setSuccess u ∉ (execJob env msg task).2)
        ∧ (∀ m, Event.setMsg m ∉ (execJob env msg task).2))
    ∧ (∀ u, env.enqueueWithMeta j { DefaultMeta j.opts with prevJobResults := c'.results } =
        Except.ok u →
        (execJob env msg task).2 =
          [Event.handlerRun msg.job.payload,
           Event.enqueueSuccessor j { DefaultMeta j.opts with prevJobResults := c'.results }]
          ++ (statusDone env { msg with onSuccessUUID := u }).2) := by
  cases henq : env.enqueueWithMeta j { DefaultMeta j.opts with prevJobResults := c'.results } with
  | error e => simp [execJob, hh, hs, henq]
  | ok u => simp [execJob, hh, hs, henq]

/-- Claim C3 witness: with an always-erroring successor enqueue, the chained
message's execution surfaces that error. -/
theorem execJob_chain_before_done_witness :
    (execJob envChainErr msgChained okTask).1 = Except.error "chain enqueue failed" :=
  ((execJob_chain_before_done envChainErr msgChained okTask childJob
      { meta := msgChained.meta, results := [] } rfl rfl).1 "chain enqueue failed" rfl).1

/-- Claim C4: in the `successful` transition the success-index write happens
before the state-message write, and in the `failed` transition the
failed-index write happens before the state-message write; when the index
write errors the state message is not written, so a state-message write
never appears in a trace without its index entry before it. -/
theorem status_index_before_state (env : Env) (t : JobMessage) :
    (env.setSuccessOK t.uuid = true →
        (statusDone env t).2 =
          [Event.setSuccess t.uuid,
           Event.setMsg { t with processedAt := env.now, status := StatusDone }])
    ∧ (env.setSuccessOK t.uuid = false →
        (statusDone env t).2 = [Event.setSuccess t.uuid])
    ∧ (env.setFailedOK t.uuid = true →
        (statusFailed env t).2 =
          [Event.setFailed t.uuid,
           Event.setMsg { t with processedAt := env.now, status := StatusFailed }])
    ∧ (env.setFailedOK t.uuid = false →
        (statusFailed env t).2 = [Event.setFailed t.uuid]) := by
  by_cases hs : env.setSuccessOK t.uuid = true <;>
  by_cases hf : env.setFailedOK t.uuid = true <;>
  by_cases hm1 : env.setMsgOK { t with processedAt := env.now, status := StatusDone } = true <;>
  by_cases hm2 : env.setMsgOK { t with processedAt := env.now, status := StatusFailed } = true <;>
    simp [statusDone, statusFailed, setJobMessage, hs, hf, hm1, hm2]

/-- Claim C4 witness: with an environment whose index writes fail, both
transitions stop at the index write and never write the state message. -/
theorem status_index_before_state_witness :
    (statusDone envNoIndex msg₀).2 = [Event.setSuccess msg₀.uuid]
    ∧ (statusFailed envNoIndex msg₀).2 = [Event.setFailed msg₀.uuid] :=
  ⟨(status_index_before_state envNoIndex msg₀).2.1 rfl,
   (status_index_before_state envNoIndex msg₀).2.2.2 rfl⟩

/-- Claim C6: the handler runs only if decoding succeeds, the task name
resolves in the registry, and the `processing` state write succeeds; a
decode error or an unknown task name drops the message with no write to the
results store, and a failed `processing` write leaves exactly that attempted
write, with the handler not executed. -/
theorem process_gates_handler (env : Env) (tasks : Registry) (work : RawBytes) :
    (∀ e, work = RawBytes.malformed e → processMessage env tasks work = [])
    ∧ (∀ m e, work = RawBytes.encodes m → getHandler tasks m.job.task = Except.error e →
        processMessage env tasks work = [])
    ∧ (∀ m task, work = RawBytes.encodes m → getHandler tasks m.job.task = Except.ok task →
        env.setMsgOK { m with processedAt := env.now, status := StatusProcessing } = false →
        processMessage env tasks work =
          [Event.setMsg { m with processedAt := env.now, status := StatusProcessing }])
    ∧ (∀ p, Event.handlerRun p ∈ processMessage env tasks work →
        ∃ m task, work = RawBytes.encodes m
          ∧ getHandler tasks m.job.task = Except.ok task
          ∧ env.setMsgOK { m with processedAt := env.now, status := StatusProcessing } = true) := by
  refine ⟨?_, ?_, ?_, ?_⟩
  · rintro e rfl
    simp [processMessage, msgpackUnmarshalJobMessage]
  · rintro m e rfl hge
    simp [processMessage, msgpackUnmarshalJobMessage, hge]
  · rintro m task rfl hok hset
    simp [processMessage, msgpackUnmarshalJobMessage, hok, statusProcessing, setJobMessage, hset]
  · intro p hp
    cases work with
    | malformed e => simp [processMessage, msgpackUnmarshalJobMessage] at hp
    | encodes m =>
      cases hg : getHandler tasks m.job.task with
      | error e =>
        simp [processMessage, msgpackUnmarshalJobMessage, hg] at hp
      | ok task =>
        by_cases hset : env.setMsgOK { m with
            processedAt := env.now
            status := StatusProcessing } = true
        · exact ⟨m, task, rfl, hg, hset⟩
        · simp [processMessage, msgpackUnmarshalJobMessage, hg, statusProcessing,
                setJobMessage, hset] at hp

/-- Claim C6 witness: a message that fails to decode is dropped with an
empty effect trace. -/
theorem process_gates_handler_witness :
    processMessage env₀ registry₀ (RawBytes.malformed "bad bytes") = [] :=
  (process_gates_handler env₀ registry₀ (RawBytes.malformed "bad bytes")).1 "bad bytes" rfl

end Tasqueue
